import Mathlib

/-!
Shallow embedding of the two React components of this repository:
the cast gallery (src/src/components/ListCast.jsx) and the counter
button (the Counter component in src/src/components/App.md).

JavaScript values stored in React state are modelled by a JSON value
type; machine-level JS semantics that the components actually exercise
(property access returning undefined, template-literal string coercion,
strict equality with 0, truthiness of the error string, Array.map
throwing a TypeError on non-arrays) are modelled explicitly.
-/

/-- A parsed JSON value, as produced by response.json().  Numbers are
modelled as integers: the repository's data (ids) and status codes are
integral, and no claim involves non-integral numbers. -/
inductive Json where
  | null
  | bool (b : Bool)
  | num (n : Int)
  | str (s : String)
  | arr (elems : List Json)
  | obj (fields : List (String × Json))
deriving Repr

/-- JS property access v.k on a value: fields of an object are looked up;
any other receiver yields undefined (modelled as none).  (In full JS,
access on null throws; no state any claim touches performs that access,
because the only access on a possibly-null value sits behind a
short-circuiting conjunction whose left side is then false.) -/
def jsGet : Json → String → Option Json
  | .obj fields, k => (fields.find? (fun p => p.1 == k)).map Prod.snd
  | _, _ => none

/-- JS v.length: arrays and strings have a length; objects may carry a
length field; other values give undefined. -/
def jsLength : Json → Option Json
  | .arr xs => some (.num (xs.length : Int))
  | .str s => some (.num (s.length : Int))
  | .obj fields => (fields.find? (fun p => p.1 == "length")).map Prod.snd
  | _ => none

/-- JS strict equality with the number 0, applied to a possibly-undefined
value: only the number 0 compares equal. -/
def jsStrictEqZero : Option Json → Bool
  | some (.num n) => n == 0
  | _ => false

/-- JS truthiness of the error state: null (none) and the empty string are
falsy, every other string is truthy. -/
def jsTruthyStr : Option String → Bool
  | none => false
  | some s => !(s == "")

mutual

/-- JS ToString coercion as used inside template literals. -/
def jsToStr : Json → String
  | .null => "null"
  | .bool b => cond b "true" "false"
  | .num n => toString n
  | .str s => s
  | .arr xs => jsJoin xs
  | .obj _ => "[object Object]"

/-- Array.prototype.toString: elements joined by commas. -/
def jsJoin : List Json → String
  | [] => ""
  | [j] => jsJoinElem j
  | j :: js => jsJoinElem j ++ "," ++ jsJoin js

/-- An element inside Array.prototype.join: null renders as the empty
string, other values by their ToString coercion. -/
def jsJoinElem : Json → String
  | .null => ""
  | .bool b => cond b "true" "false"
  | .num n => toString n
  | .str s => s
  | .arr xs => jsJoin xs
  | .obj _ => "[object Object]"

end

/-- Template-literal splice of a possibly-undefined value. -/
def jsToStrOpt : Option Json → String
  | none => "undefined"
  | some j => jsToStr j

/-- One record of the fetched collection (an element of cast.json),
carrying the three fields the component reads: id (render key), name
(tooltip and alt text) and slug (thumbnail path). -/
structure CastMember where
  id : Int
  name : String
  slug : String
deriving DecidableEq, Repr

/-- The JSON object a well-formed CastMember record parses to. -/
def CastMember.toJson (m : CastMember) : Json :=
  .obj [("id", .num m.id), ("name", .str m.name), ("slug", .str m.slug)]

/-- The click actions that occur in the component's markup.  The source
attaches fetchCast to the Retry and Refresh buttons; invokeOnChoice is
the selection-callback invocation the documentation talks about. -/
inductive ClickAction where
  | fetchCastAction
  | invokeOnChoice
deriving DecidableEq, Repr

/-- One rendered thumbnail: the anchor element produced for one element
of the stored cast value, with its key, data-tooltip attribute, the img
src and alt, and its click handler (an absent handler is none). -/
structure Thumb where
  key : Option Json
  tooltip : Option Json
  src : String
  alt : Option Json
  onClick : Option ClickAction
deriving Repr

/-- The anchor rendered for one member by cast.map in the source:
key from member.id, data-tooltip and alt from member.name, src from the
template literal on member.slug.  The anchor carries no onClick. -/
def thumbOf (member : Json) : Thumb :=
  { key := jsGet member "id"
    tooltip := jsGet member "name"
    src := "images/" ++ jsToStrOpt (jsGet member "slug") ++ "_tn.svg"
    alt := jsGet member "name"
    onClick := none }

/-- cast.map over the stored value: arrays map each element to its
thumbnail; on any non-array receiver, Array.prototype.map is not a
function and the render throws a TypeError. -/
def castMap : Json → Except String (List Thumb)
  | .arr xs => .ok (xs.map thumbOf)
  | _ => .error "TypeError: cast.map is not a function"

/-- The Refresh Cast button of the success branch: onClick is fetchCast,
it is disabled while loading, shows the Spinner while loading, and its
label switches between Refreshing... and Refresh Cast. -/
structure RefreshButton where
  action : ClickAction
  disabled : Bool
  busyIndicator : Bool
  label : String
deriving DecidableEq, Repr

def refreshButton (loading : Bool) : RefreshButton :=
  { action := .fetchCastAction
    disabled := loading
    busyIndicator := loading
    label := if loading then "Refreshing..." else "Refresh Cast" }

/-- The three possible outputs of the ListCast render function: the
loading paragraph, the error view with its message text and Retry
button, or the main view with the refresh button and the grid. -/
inductive Render where
  | loadingPlaceholder (text : String)
  | errorView (message : String) (retryAction : ClickAction) (retryLabel : String)
  | mainView (button : RefreshButton) (grid : Except String (List Thumb))
deriving Repr

/-- The React state of ListCast: cast (initially an empty array, then
whatever response.json() produced), the loading flag, and the error
message (null or a string). -/
structure CompState where
  cast : Json
  loading : Bool
  error : Option String
deriving Repr

/-- The state after useState initialisation: empty array, loading true,
no error. -/
def initialState : CompState :=
  { cast := .arr [], loading := true, error := none }

/-- The body of ListCast after the hooks: if (loading && cast.length
=== 0) the loading paragraph; else if (error) the error view with the
Retry button; else the refresh button followed by the grid built by
cast.map. -/
def listCastRender (s : CompState) : Render :=
  if s.loading && jsStrictEqZero (jsLength s.cast) then
    .loadingPlaceholder "Loading cast..."
  else if jsTruthyStr s.error then
    .errorView ("Failed to load cast: " ++ (s.error.getD "")) .fetchCastAction "Retry"
  else
    .mainView (refreshButton s.loading) (castMap s.cast)

/-- The HTTP response delivered to an awaited fetch that resolved:
its status code and the outcome of response.json() on its body
(the parsed value, or the parse-error message). -/
structure HttpResponse where
  status : Nat
  body : Except String Json
deriving Repr

/-- response.ok per the fetch standard: status in the range 200..299. -/
def HttpResponse.isOk (r : HttpResponse) : Bool :=
  200 ≤ r.status && r.status < 300

/-- What the environment does to one fetch("cast.json") call: the
promise rejects with a transport error carrying a message, or it
resolves to a response. -/
inductive FetchResult where
  | reject (msg : String)
  | resolve (r : HttpResponse)
deriving Repr

/-- The fetchCast function of ListCast run against one fetch outcome.
The first component lists the states reached after each state-setter
call while the invocation is still in flight: setLoading(true), then
setError(null), then one of setCast(data) / setError(message) via the
catch block.  The second component is the settled state, after the
finally block runs setLoading(false).  A non-ok response throws before
response.json() is consulted; a parse failure or a transport rejection
lands in the catch block with the error's message. -/
def fetchCastRun (s : CompState) (res : FetchResult) : List CompState × CompState :=
  let s1 : CompState := { s with loading := true }
  let s2 : CompState := { s1 with error := none }
  match res with
  | .reject msg =>
      let s3 : CompState := { s2 with error := some msg }
      ([s1, s2, s3], { s3 with loading := false })
  | .resolve r =>
      if r.isOk then
        match r.body with
        | .ok v =>
            let s3 : CompState := { s2 with cast := v }
            ([s1, s2, s3], { s3 with loading := false })
        | .error msg =>
            let s3 : CompState := { s2 with error := some msg }
            ([s1, s2, s3], { s3 with loading := false })
      else
        let s3 : CompState :=
          { s2 with error := some ("HTTP error! status: " ++ toString r.status) }
        ([s1, s2, s3], { s3 with loading := false })

/-- The state after fetchCast settles. -/
def fetchCast (s : CompState) (res : FetchResult) : CompState :=
  (fetchCastRun s res).2

/-- The parsed data of a successful attempt: the body value when the
response resolved with an ok status and a parseable body, none on every
failure path. -/
def fetchSuccessData : FetchResult → Option Json
  | .reject _ => none
  | .resolve r =>
      if r.isOk then
        match r.body with
        | .ok v => some v
        | .error _ => none
      else none

/-!
The Counter component of src/src/components/App.md: pageTitle is
document.title captured once at module load (the baseline); on each
render the effect runs count && (document.title = pageTitle ++ "--" ++
count); the button shows Click Me with no suffix at count 0 and with
the count followed by " times" otherwise, and a click sets count+1.
-/

/-- The counter's observable state: the count and the document title. -/
structure CounterState where
  count : Nat
  title : String
deriving DecidableEq, Repr

/-- The state at first load, before any activation: count 0 and the
document title still at the baseline the module captured. -/
def counterInit (baseline : String) : CounterState :=
  { count := 0, title := baseline }

/-- The effect body, run after every render: when count is truthy
(nonzero) the document title is overwritten to baseline--count;
when count is 0 the short-circuit leaves the title untouched. -/
def titleEffect (baseline : String) (s : CounterState) : CounterState :=
  if s.count ≠ 0 then
    { s with title := baseline ++ "--" ++ toString s.count }
  else s

/-- One user activation: onClick runs setCount(count + 1), the
component re-renders, and the effect runs on the new state. -/
def activate (baseline : String) (s : CounterState) : CounterState :=
  titleEffect baseline { s with count := s.count + 1 }

/-- The conditional part of the button label: the empty string at count
0, otherwise the count followed by a space and the word times. -/
def countSuffix (count : Nat) : String :=
  if count == 0 then "" else toString count ++ " times"

/-- The full button text: the fixed Click Me text followed by the
conditional suffix. -/
def counterButtonText (count : Nat) : String :=
  "Click Me " ++ countSuffix count

/-! Helper lemmas: the settled state of fetchCast on each of its four
exit paths, and the corresponding value of fetchSuccessData. -/

theorem fetchCast_reject_eq (s : CompState) (msg : String) :
    fetchCast s (.reject msg)
      = { cast := s.cast, loading := false, error := some msg } := rfl

theorem fetchCast_ok_parsed_eq (s : CompState) (r : HttpResponse) (v : Json)
    (hok : r.isOk = true) (hb : r.body = .ok v) :
    fetchCast s (.resolve r) = { cast := v, loading := false, error := none } := by
  simp [fetchCast, fetchCastRun, hok, hb]

theorem fetchCast_parse_fail_eq (s : CompState) (r : HttpResponse) (msg : String)
    (hok : r.isOk = true) (hb : r.body = .error msg) :
    fetchCast s (.resolve r)
      = { cast := s.cast, loading := false, error := some msg } := by
  simp [fetchCast, fetchCastRun, hok, hb]

theorem fetchCast_not_ok_eq (s : CompState) (r : HttpResponse)
    (hok : r.isOk = false) :
    fetchCast s (.resolve r)
      = { cast := s.cast, loading := false,
          error := some ("HTTP error! status: " ++ toString r.status) } := by
  simp [fetchCast, fetchCastRun, hok]

theorem fetchSuccessData_ok_parsed (r : HttpResponse) (v : Json)
    (hok : r.isOk = true) (hb : r.body = .ok v) :
    fetchSuccessData (.resolve r) = some v := by
  simp [fetchSuccessData, hok, hb]

theorem fetchSuccessData_parse_fail (r : HttpResponse) (msg : String)
    (hok : r.isOk = true) (hb : r.body = .error msg) :
    fetchSuccessData (.resolve r) = none := by
  simp [fetchSuccessData, hok, hb]

theorem fetchSuccessData_not_ok (r : HttpResponse) (hok : r.isOk = false) :
    fetchSuccessData (.resolve r) = none := by
  simp [fetchSuccessData, hok]

/-- C1: every completed fetchCast invocation clears the error right
after its start (the state reached by setError(null) has a null error),
and afterwards exactly one of the two outcomes holds: the stored cast
was replaced by the successfully fetched data with the error null, or
the error holds a message and the cast equals its value from before the
invocation. -/
theorem fetchCast_settles_exactly_one (s : CompState) (res : FetchResult) :
    ((fetchCastRun s res).1[1]?.map CompState.error = some none)
    ∧ (((fetchCast s res).error = none
          ∧ ∃ v, fetchSuccessData res = some v ∧ (fetchCast s res).cast = v)
        ∨ ((fetchCast s res).cast = s.cast ∧ fetchSuccessData res = none
          ∧ ∃ msg, (fetchCast s res).error = some msg))
    ∧ ¬(((fetchCast s res).error = none
          ∧ ∃ v, fetchSuccessData res = some v ∧ (fetchCast s res).cast = v)
        ∧ ((fetchCast s res).cast = s.cast ∧ fetchSuccessData res = none
          ∧ ∃ msg, (fetchCast s res).error = some msg)) := by
  refine ⟨?_, ?_, ?_⟩
  · cases res with
    | reject msg => rfl
    | resolve r =>
        cases hok : r.isOk with
        | false => simp [fetchCastRun, hok]
        | true =>
            cases hb : r.body with
            | ok v => simp [fetchCastRun, hok, hb]
            | error m => simp [fetchCastRun, hok, hb]
  · cases res with
    | reject msg => exact Or.inr ⟨rfl, rfl, msg, rfl⟩
    | resolve r =>
        cases hok : r.isOk with
        | false =>
            exact Or.inr ⟨by rw [fetchCast_not_ok_eq s r hok],
              fetchSuccessData_not_ok r hok,
              "HTTP error! status: " ++ toString r.status,
              by rw [fetchCast_not_ok_eq s r hok]⟩
        | true =>
            cases hb : r.body with
            | ok v =>
                exact Or.inl ⟨by rw [fetchCast_ok_parsed_eq s r v hok hb],
                  v, fetchSuccessData_ok_parsed r v hok hb,
                  by rw [fetchCast_ok_parsed_eq s r v hok hb]⟩
            | error m =>
                exact Or.inr ⟨by rw [fetchCast_parse_fail_eq s r m hok hb],
                  fetchSuccessData_parse_fail r m hok hb,
                  m, by rw [fetchCast_parse_fail_eq s r m hok hb]⟩
  · rintro ⟨⟨h1, -⟩, -, -, msg, h2⟩
    simp [h1] at h2

/-- Witness for C1 at a concrete input: a 200 response whose body
parses to the number 5; the success outcome of the disjunction holds,
so the settled error is null and the stored cast is the parsed data. -/
theorem fetchCast_settles_exactly_one_witness :
    (fetchCast initialState (.resolve { status := 200, body := .ok (.num 5) })).error = none
    ∧ (fetchCast initialState (.resolve { status := 200, body := .ok (.num 5) })).cast
        = .num 5 := by
  rcases (fetchCast_settles_exactly_one initialState
      (.resolve { status := 200, body := .ok (.num 5) })).2.1 with h | h
  · obtain ⟨he, v, hv, hc⟩ := h
    have hv5 : v = .num 5 := by
      simp [fetchSuccessData, HttpResponse.isOk] at hv
      exact hv.symm
    exact ⟨he, hv5 ▸ hc⟩
  · exfalso
    have hnone := h.2.1
    simp [fetchSuccessData, HttpResponse.isOk] at hnone

/-- C2: on every exit path of fetchCast — success, non-2xx status,
transport rejection, or parse failure — every state while the attempt
is in flight has the loading flag true, and the settled state has it
false (the finally block's setLoading(false)). -/
theorem fetchCast_loading_flag (s : CompState) (res : FetchResult) :
    (∀ t ∈ (fetchCastRun s res).1, t.loading = true)
    ∧ (fetchCast s res).loading = false := by
  refine ⟨?_, ?_⟩
  · cases res with
    | reject msg => simp [fetchCastRun]
    | resolve r =>
        cases hok : r.isOk with
        | false => simp [fetchCastRun, hok]
        | true =>
            cases hb : r.body with
            | ok v => simp [fetchCastRun, hok, hb]
            | error m => simp [fetchCastRun, hok, hb]
  · cases res with
    | reject msg => rfl
    | resolve r =>
        cases hok : r.isOk with
        | false => rw [fetchCast_not_ok_eq s r hok]
        | true =>
            cases hb : r.body with
            | ok v => rw [fetchCast_ok_parsed_eq s r v hok hb]
            | error m => rw [fetchCast_parse_fail_eq s r m hok hb]

/-- Witness for C2 at a concrete input: a transport rejection starting
from the initial state; the in-flight state has loading true and the
settled state has loading false. -/
theorem fetchCast_loading_flag_witness :
    ({ cast := Json.arr [], loading := true, error := none } : CompState).loading = true
    ∧ (fetchCast initialState (.reject "network unreachable")).loading = false :=
  ⟨(fetchCast_loading_flag initialState (.reject "network unreachable")).1
      { cast := Json.arr [], loading := true, error := none }
      (by simp [fetchCastRun, initialState]),
   (fetchCast_loading_flag initialState (.reject "network unreachable")).2⟩

/-- C5: a response with a non-success status makes fetchCast leave the
stored cast at its prior value and set the error to the synthesized
message, whose text contains the numeric status code. -/
theorem fetchCast_status_failure (s : CompState) (r : HttpResponse)
    (hok : r.isOk = false) :
    fetchCast s (.resolve r)
      = { cast := s.cast, loading := false,
          error := some ("HTTP error! status: " ++ toString r.status) }
    ∧ ∃ pre post, "HTTP error! status: " ++ toString r.status
        = pre ++ toString r.status ++ post := by
  refine ⟨fetchCast_not_ok_eq s r hok, "HTTP error! status: ", "", ?_⟩
  simp

/-- Witness for C5: an HTTP 404 received while a one-member collection
is loaded sets the error to a message containing 404 and leaves the
collection unchanged. -/
theorem fetchCast_status_failure_witness :
    (fetchCast
        { cast := .arr [CastMember.toJson { id := 1, name := "Alice", slug := "alice" }],
          loading := false, error := none }
        (.resolve { status := 404, body := .ok (.str "Not Found") })
      = { cast := .arr [CastMember.toJson { id := 1, name := "Alice", slug := "alice" }],
          loading := false,
          error := some ("HTTP error! status: " ++ toString (404 : Nat)) }
    ∧ ∃ pre post, "HTTP error! status: " ++ toString (404 : Nat)
        = pre ++ toString (404 : Nat) ++ post)
    ∧ "HTTP error! status: " ++ toString (404 : Nat) = "HTTP error! status: 404" :=
  ⟨fetchCast_status_failure
      { cast := .arr [CastMember.toJson { id := 1, name := "Alice", slug := "alice" }],
        loading := false, error := none }
      { status := 404, body := .ok (.str "Not Found") } (by decide),
   by decide⟩

/-- C10: fetchCast performs no shape validation: whatever value the
body parsed to, array or not, is stored as the cast with no error set,
and the next render reaches the main branch, whose grid is cast.map
applied to the stored value as-is. -/
theorem fetchCast_no_shape_validation (s : CompState) (r : HttpResponse) (v : Json)
    (hok : r.isOk = true) (hb : r.body = .ok v) :
    fetchCast s (.resolve r) = { cast := v, loading := false, error := none }
    ∧ listCastRender (fetchCast s (.resolve r))
        = .mainView (refreshButton false) (castMap v) := by
  have h := fetchCast_ok_parsed_eq s r v hok hb
  refine ⟨h, ?_⟩
  rw [h]
  simp [listCastRender, jsTruthyStr]

/-- Witness for C10: a body parsing to the bare number 5 is stored as
the cast, no error is set, and the grid computation applied to it is
the TypeError of calling map on a non-array. -/
theorem fetchCast_no_shape_validation_witness :
    (fetchCast initialState (.resolve { status := 200, body := .ok (.num 5) })
      = { cast := .num 5, loading := false, error := none }
    ∧ listCastRender (fetchCast initialState (.resolve { status := 200, body := .ok (.num 5) }))
        = .mainView (refreshButton false) (castMap (.num 5)))
    ∧ castMap (.num 5) = .error "TypeError: cast.map is not a function" :=
  ⟨fetchCast_no_shape_validation initialState
      { status := 200, body := .ok (.num 5) } (.num 5) (by decide) rfl,
   rfl⟩

/-- C3: with the stored cast an array, the render picks exactly one of
the three branches by priority: loading with an empty collection gives
the bare loading paragraph; otherwise a set (non-empty) error gives the
error view with the Retry control; otherwise the refresh control
(disabled and showing the busy Spinner exactly while loading) together
with the thumbnail grid.  The three premises are exhaustive and
mutually exclusive, and the three outputs are distinct constructors. -/
theorem listCastRender_three_branches (xs : List Json) (loading : Bool)
    (err : Option String) (herr : err ≠ some "") :
    ((loading = true ∧ xs = []) →
        listCastRender { cast := .arr xs, loading := loading, error := err }
          = .loadingPlaceholder "Loading cast...")
    ∧ (¬(loading = true ∧ xs = []) → ∀ msg, err = some msg →
        listCastRender { cast := .arr xs, loading := loading, error := err }
          = .errorView ("Failed to load cast: " ++ msg) .fetchCastAction "Retry")
    ∧ (¬(loading = true ∧ xs = []) → err = none →
        listCastRender { cast := .arr xs, loading := loading, error := err }
          = .mainView (refreshButton loading) (.ok (xs.map thumbOf))) := by
  have hcond : ¬(loading = true ∧ xs = []) →
      (loading && jsStrictEqZero (jsLength (Json.arr xs))) = false := by
    intro h
    cases loading with
    | false => rfl
    | true =>
        have hxs : xs ≠ [] := fun hx => h ⟨rfl, hx⟩
        simp [jsLength, jsStrictEqZero, hxs]
  refine ⟨?_, ?_, ?_⟩
  · rintro ⟨hl, hx⟩
    subst hl; subst hx
    rfl
  · intro hne msg hmsg
    subst hmsg
    have hm : msg ≠ "" := fun h => herr (by rw [h])
    simp [listCastRender, hcond hne, jsTruthyStr, hm]
  · intro hne hnone
    subst hnone
    simp [listCastRender, hcond hne, jsTruthyStr, castMap]

/-- Witness for C3: the initial state (loading, empty collection, no
error) renders the loading placeholder. -/
theorem listCastRender_three_branches_witness :
    listCastRender { cast := .arr [], loading := true, error := none }
      = .loadingPlaceholder "Loading cast..." :=
  (listCastRender_three_branches [] true none (by simp)).1 ⟨rfl, rfl⟩

/-- The thumbnail the grid renders for a well-formed CastMember record:
keyed by its id, name as tooltip and alt text, the slug-derived image
path, and no click handler. -/
def expectedThumb (m : CastMember) : Thumb :=
  { key := some (.num m.id)
    tooltip := some (.str m.name)
    src := "images/" ++ m.slug ++ "_tn.svg"
    alt := some (.str m.name)
    onClick := none }

theorem thumbOf_toJson (m : CastMember) :
    thumbOf (CastMember.toJson m) = expectedThumb m := rfl

/-- C4: rendering a stored collection of N well-formed CastMember
records yields the main view whose grid is exactly the N thumbnails in
the records' order, each keyed by the record's id, with the record's
name as tooltip and alt text and images/slug_tn.svg as the source. -/
theorem grid_matches_collection (members : List CastMember) :
    listCastRender { cast := .arr (members.map CastMember.toJson),
                     loading := false, error := none }
      = .mainView (refreshButton false) (.ok (members.map expectedThumb))
    ∧ (members.map expectedThumb).length = members.length := by
  refine ⟨?_, by simp⟩
  simp [listCastRender, jsTruthyStr, castMap, Function.comp, thumbOf_toJson]

/-- C9: whenever a non-empty error message is set, the render shows the
error view — even while a previously fetched non-empty collection is
still stored — and does not render the main view with its grid. -/
theorem error_branch_hides_loaded_grid (xs : List Json) (loading : Bool)
    (msg : String) (hxs : xs ≠ []) (hmsg : msg ≠ "") :
    listCastRender { cast := .arr xs, loading := loading, error := some msg }
      = .errorView ("Failed to load cast: " ++ msg) .fetchCastAction "Retry"
    ∧ ∀ b g, listCastRender { cast := .arr xs, loading := loading, error := some msg }
        ≠ .mainView b g := by
  have hcond : (loading && jsStrictEqZero (jsLength (Json.arr xs))) = false := by
    cases loading with
    | false => rfl
    | true => simp [jsLength, jsStrictEqZero, hxs]
  have h1 : listCastRender { cast := .arr xs, loading := loading, error := some msg }
      = .errorView ("Failed to load cast: " ++ msg) .fetchCastAction "Retry" := by
    simp [listCastRender, hcond, jsTruthyStr, hmsg]
  exact ⟨h1, by simp [h1]⟩

/-- Witness for C9: a stored one-member collection with the 404 error
message set renders the error view. -/
theorem error_branch_hides_loaded_grid_witness :
    listCastRender
        { cast := .arr [CastMember.toJson { id := 1, name := "Alice", slug := "alice" }],
          loading := false, error := some "HTTP error! status: 404" }
      = .errorView ("Failed to load cast: " ++ "HTTP error! status: 404")
          .fetchCastAction "Retry" :=
  (error_branch_hides_loaded_grid
      [CastMember.toJson { id := 1, name := "Alice", slug := "alice" }]
      false "HTTP error! status: 404" (by simp) (by decide)).1

/-- Counterexample to C6 as stated: for the concrete stored collection
holding the single member (id 1, name Alice, slug alice), the rendered
thumbnail carries no click handler at all (onClick is none), so a user
activating it invokes nothing — in particular not an onChoice/onSelect
callback.  The onChoice wiring exists only in the repository's
documentation, not in the component. -/
theorem thumb_click_no_callback_cex :
    castMap (.arr [CastMember.toJson { id := 1, name := "Alice", slug := "alice" }])
      = .ok [{ key := some (.num 1), tooltip := some (.str "Alice"),
               src := "images/alice_tn.svg", alt := some (.str "Alice"),
               onClick := none }]
    ∧ (thumbOf (CastMember.toJson { id := 1, name := "Alice", slug := "alice" })).onClick
        ≠ some ClickAction.invokeOnChoice :=
  ⟨rfl, by simp [thumbOf, CastMember.toJson, jsGet]⟩

/-- C6 amended: every thumbnail the grid renders carries no click
handler; the component never invokes a selection callback (and takes no
onChoice/onSelect prop). -/
theorem grid_thumbs_have_no_click_handler (v : Json) (ts : List Thumb)
    (h : castMap v = .ok ts) : ∀ t ∈ ts, t.onClick = none := by
  cases v with
  | arr xs =>
      simp only [castMap, Except.ok.injEq] at h
      subst h
      intro t ht
      simp only [List.mem_map] at ht
      obtain ⟨x, -, rfl⟩ := ht
      rfl
  | null => exact absurd h (by simp [castMap])
  | bool b => exact absurd h (by simp [castMap])
  | num n => exact absurd h (by simp [castMap])
  | str s => exact absurd h (by simp [castMap])
  | obj fields => exact absurd h (by simp [castMap])

/-- Witness for the amended C6: the one thumbnail rendered for the
concrete one-member collection has no click handler. -/
theorem grid_thumbs_have_no_click_handler_witness :
    ({ key := some (.num 1), tooltip := some (.str "Alice"),
       src := "images/alice_tn.svg", alt := some (.str "Alice"),
       onClick := none } : Thumb).onClick = none :=
  grid_thumbs_have_no_click_handler
    (.arr [CastMember.toJson { id := 1, name := "Alice", slug := "alice" }])
    [{ key := some (.num 1), tooltip := some (.str "Alice"),
       src := "images/alice_tn.svg", alt := some (.str "Alice"),
       onClick := none }]
    rfl _ (by simp)

/-- C7: with the baseline captured at first load, a render with count 0
leaves the document title untouched (conjuncts 1 and 4); the first
activation sets it to baseline--1, the second to baseline--2; and in
general every render with a nonzero count overwrites the title to the
baseline, the -- separator and the count. -/
theorem counter_title_effect (baseline : String) :
    (titleEffect baseline (counterInit baseline)).title = baseline
    ∧ (activate baseline (counterInit baseline)).title = baseline ++ "--" ++ "1"
    ∧ (activate baseline (activate baseline (counterInit baseline))).title
        = baseline ++ "--" ++ "2"
    ∧ (∀ s : CounterState, s.count = 0 → titleEffect baseline s = s)
    ∧ (∀ s : CounterState, s.count ≠ 0 →
        (titleEffect baseline s).title = baseline ++ "--" ++ toString s.count) := by
  refine ⟨rfl, ?_, ?_, ?_, ?_⟩
  · simp only [activate, counterInit, titleEffect]
    norm_num
    rfl
  · simp only [activate, counterInit, titleEffect]
    norm_num
    rfl
  · intro s h
    simp [titleEffect, h]
  · intro s h
    simp [titleEffect, h]

/-- Witness for C7: at count 0 the title is left alone; at count 2 it
is overwritten to the baseline, the separator and the count. -/
theorem counter_title_effect_witness :
    titleEffect "My App" { count := 0, title := "kept" } = { count := 0, title := "kept" }
    ∧ (titleEffect "My App" { count := 2, title := "old" }).title
        = "My App" ++ "--" ++ toString 2 :=
  ⟨(counter_title_effect "My App").2.2.2.1 { count := 0, title := "kept" } rfl,
   (counter_title_effect "My App").2.2.2.2 { count := 2, title := "old" } (by decide)⟩

/-- C8: the button reads the fixed Click Me text with an empty suffix
at count 0, and with the count followed by the word times at any
nonzero count; in particular the suffix after one activation from zero
reads 1 times. -/
theorem counter_button_label (n : Nat) (hn : n ≠ 0) :
    counterButtonText 0 = "Click Me "
    ∧ countSuffix 0 = ""
    ∧ counterButtonText n = "Click Me " ++ (toString n ++ " times")
    ∧ countSuffix 1 = "1 times" := by
  refine ⟨rfl, rfl, ?_, by decide⟩
  simp [counterButtonText, countSuffix, hn]

/-- Witness for C8 at count 1. -/
theorem counter_button_label_witness :
    counterButtonText 0 = "Click Me "
    ∧ countSuffix 0 = ""
    ∧ counterButtonText 1 = "Click Me " ++ (toString 1 ++ " times")
    ∧ countSuffix 1 = "1 times" :=
  counter_button_label 1 (by decide)

